import Mathlib

/-
Verification development for the insurance-policy RAG assistant.

The Python code is shallowly embedded: each external service call
(S3 get_object, Bedrock retrieve, Bedrock invoke_model or
retrieve_and_generate) is modelled as an explicit parameter giving the
outcome of that call, of type Except String A (error = raised exception).
A Python function that catches exceptions broadly and substitutes a
fallback value becomes a Lean function that pattern matches on the
Except outcome.  Where a function makes an external call, the embedding
also returns the number of such calls performed, so that retry behaviour
is visible in the model.
-/

/-! ### Generic string helpers (embedding of Python str operations) -/

/-- Boolean test that the first character list starts with the second. -/
def segStartsWith : List Char → List Char → Bool
  | _, [] => true
  | [], _ => false
  | h :: hs, p :: ps => h == p && segStartsWith hs ps

/-- Boolean test that the second character list occurs inside the first
(embedding of the Python `in` operator on strings). -/
def segContains : List Char → List Char → Bool
  | [], pat => pat.isEmpty
  | h :: hs, pat => segStartsWith (h :: hs) pat || segContains hs pat

/-- String-level test that s starts with pre. -/
def strStartsWith (s pre : String) : Bool := segStartsWith s.data pre.data

/-- String-level test that s ends with suf. -/
def strEndsWith (s suf : String) : Bool := segStartsWith s.data.reverse suf.data.reverse

/-- String-level test that pat occurs inside hay. -/
def strContains (hay pat : String) : Bool := segContains hay.data pat.data

/-- ASCII lowercasing of one character, as performed by Python str.lower
on the ASCII inputs used by this code base. -/
def charLower (c : Char) : Char :=
  if 'A' ≤ c && c ≤ 'Z' then Char.ofNat (c.toNat + 32) else c

/-- ASCII lowercasing of a string. -/
def strLower (s : String) : String := ⟨s.data.map charLower⟩

/-- Embedding of Python sep.join(xs): elements interleaved with the
separator, empty string on the empty list. -/
def joinWith (sep : String) : List String → String
  | [] => ""
  | [x] => x
  | x :: y :: xs => x ++ sep ++ joinWith sep (y :: xs)

/-! ### Retrieval data model

A retrieval result from the knowledge-base service carries text
(result content text), an optional metadata source label, and an
optional relevance score. -/

structure RetrievalResult where
  text : String
  source : Option String
  score : Option Rat
deriving Repr, DecidableEq

/-! ### Retrieval clients

Embeddings of the three retrieval wrappers.  The external service is a
function from the requested number of results to the outcome of the
call: an exception, or the ranked list of results it returned. -/

/-- Default max_results of InsurancePolicyQueryHandler.retrieve_from_kb
(src/api/query/route.py line 37). -/
def route_retrieve_default_max : Nat := 3

/-- Default max_results of EnhancedKnowledgeBaseManager.retrieve_documents
(src/rag_system.py line 120). -/
def rag_retrieve_default_max : Nat := 5

/-- Default max_results of KnowledgeBaseRetriever.retrieve
(src/kb_data_builder.py line 102). -/
def builder_retrieve_default_max : Nat := 5

/-- Embedding of InsurancePolicyQueryHandler.retrieve_from_kb
(src/api/query/route.py lines 37 to 52): calls the service once with
max_results; on success returns response retrievalResults, on any
exception returns the empty list. -/
def route_retrieve_from_kb (svc : Nat → Except String (List RetrievalResult))
    (_query : String) (max_results : Nat) : List RetrievalResult :=
  match svc max_results with
  | .ok rs => rs
  | .error _ => []

/-- Demo results of EnhancedKnowledgeBaseManager._get_demo_results
(src/rag_system.py lines 143 to 157). -/
def rag_demo_results (query : String) : List RetrievalResult :=
  [⟨"Demo result for query: " ++ query ++ ". This would contain relevant insurance policy information.",
    some "Demo Policy Document", some ((95 : Rat) / 100)⟩,
   ⟨"Coverage includes comprehensive and collision protection with a $500 deductible.",
    some "Coverage Details", some ((87 : Rat) / 100)⟩]

/-- Embedding of EnhancedKnowledgeBaseManager.retrieve_documents
(src/rag_system.py lines 120 to 141): demo results when not connected;
otherwise one service call, response get retrievalResults with default
empty list on success, empty list on any exception. -/
def rag_retrieve_documents (connected : Bool)
    (svc : Nat → Except String (List RetrievalResult))
    (query : String) (max_results : Nat) : List RetrievalResult :=
  if !connected then rag_demo_results query
  else
    match svc max_results with
    | .ok rs => rs
    | .error _ => []

/-- Embedding of KnowledgeBaseRetriever.retrieve
(src/kb_data_builder.py lines 102 to 117): one service call; the result
list on success, the empty list on any exception. -/
def builder_retrieve (svc : Nat → Except String (List RetrievalResult))
    (_query : String) (max_results : Nat) : List RetrievalResult :=
  match svc max_results with
  | .ok rs => rs
  | .error _ => []

/-! ### Ingestion polling

The remote job is modelled by the sequence of statuses successive
status fetches would observe.  The loop of src/kb_data_builder.py
(lines 164 to 172) fetches a status, stops if it is COMPLETE or FAILED,
otherwise sleeps 30 seconds and fetches again.  The trace records each
fetch and each sleep in order.  An empty or terminal-free sequence means
the loop never terminates, modelled as none. -/

/-- Terminal ingestion statuses (src/kb_data_builder.py line 169,
src/setup_kb.py line 41). -/
def isTerminal (s : String) : Bool := s == "COMPLETE" || s == "FAILED"

/-- One observable event of the polling loop. -/
inductive PollEvent where
  | fetch (status : String)
  | sleep (secs : Nat)
deriving Repr, DecidableEq

/-- Embedding of the kb_data_builder main polling loop: the event trace
and the final status, if the loop terminates on the given status
sequence. -/
def pollTrace : List String → Option (List PollEvent × String)
  | [] => none
  | s :: rest =>
    if isTerminal s then some ([.fetch s], s)
    else (pollTrace rest).map fun p => (.fetch s :: .sleep 30 :: p.1, p.2)

/-- Number of status fetches in a trace. -/
def fetchCount : List PollEvent → Nat
  | [] => 0
  | .fetch _ :: es => fetchCount es + 1
  | .sleep _ :: es => fetchCount es

/-- Number of sleeps in a trace. -/
def sleepCount : List PollEvent → Nat
  | [] => 0
  | .fetch _ :: es => sleepCount es
  | .sleep _ :: es => sleepCount es + 1

/-- Every sleep event in the trace pauses exactly the given number of
seconds. -/
def allSleeps (secs : Nat) : List PollEvent → Bool
  | [] => true
  | .fetch _ :: es => allSleeps secs es
  | .sleep n :: es => n == secs && allSleeps secs es

/-- Embedding of the setup_kb polling loop (src/setup_kb.py lines 31 to
47): each poll either fails (none, the loop prints a failure message and
breaks) or yields a status; a terminal status breaks, otherwise the loop
sleeps 30 seconds and polls again.  Returns the number of status fetches
and the final observed status (none when the last status check failed). -/
def setupPoll : List (Option String) → Option (Nat × Option String)
  | [] => none
  | none :: _ => some (1, none)
  | some s :: rest =>
    if isTerminal s then some (1, some s)
    else (setupPoll rest).map fun p => (p.1 + 1, p.2)

/-- Index of the first element satisfying p, if any. -/
def firstIdx (p : String → Bool) : List String → Option Nat
  | [] => none
  | x :: xs => if p x then some 0 else (firstIdx p xs).map (· + 1)

/-- The statuses observed by the fetch events of a trace, in order. -/
def fetchedStatuses : List PollEvent → List String
  | [] => []
  | .fetch s :: es => s :: fetchedStatuses es
  | .sleep _ :: es => fetchedStatuses es

/-- Sample polled status sequence: two non-terminal fetches, then a
terminal one, then a status the loop must never observe. -/
def samplePollStatuses : List String := ["STARTING", "IN_PROGRESS", "COMPLETE", "LATE"]

/-- The event trace the polling loop produces on samplePollStatuses. -/
def samplePollTr : List PollEvent :=
  [.fetch "STARTING", .sleep 30, .fetch "IN_PROGRESS", .sleep 30, .fetch "COMPLETE"]

/-! ### Customer policy fetch

The S3 store is modelled as a function from key to outcome of
get_object: an exception (object absent, permission error, ...) or the
decoded body text. -/

/-- Customer policy key used by the query route and the streamlit app
(src/api/query/route.py line 30, src/streamlit_insurance_app.py
line 28). -/
def customer_policy_key (username : String) : String :=
  "customer_policy/" ++ username ++ ".txt"

/-- Embedding of InsurancePolicyQueryHandler.get_customer_policy
(src/api/query/route.py lines 25 to 35): body text on success, empty
string on any exception. -/
def route_get_customer_policy (s3get : String → Except String String)
    (username : String) : String :=
  match s3get (customer_policy_key username) with
  | .ok body => body
  | .error _ => ""

/-- Embedding of S3Storage.get_file (src/lib/s3_storage.py lines 32 to
39): the body text on success, none on any exception. -/
def s3storage_get_file (s3get : String → Except String String)
    (key : String) : Option String :=
  match s3get key with
  | .ok body => some body
  | .error _ => none

/-- Embedding of InsuranceAssistant.get_customer_policy
(src/streamlit_insurance_app.py lines 26 to 28): get_file, with the
Python `or` collapsing a missing result to the empty string. -/
def streamlit_get_customer_policy (s3get : String → Except String String)
    (username : String) : String :=
  match s3storage_get_file s3get (customer_policy_key username) with
  | some body => body
  | none => ""

/-- The hardcoded mock policy table of
RAGInsuranceAssistant._get_customer_policy (src/rag_system.py lines 312
to 329). -/
def rag_policies : List (String × String) :=
  [("john_doe",
    "\n            Policy Number: POL-123456\n            Coverage: Comprehensive Auto Insurance\n            Deductible: $500\n            Premium: $1,200/year\n            Vehicle: 2020 Honda Civic\n            Coverage Limits: $100,000/$300,000/$50,000\n            "),
   ("jane_smith",
    "\n            Policy Number: POL-789012\n            Coverage: Full Coverage Auto Insurance\n            Deductible: $250\n            Premium: $1,500/year\n            Vehicle: 2021 Toyota Camry\n            Coverage Limits: $250,000/$500,000/$100,000\n            ")]

/-- Embedding of RAGInsuranceAssistant._get_customer_policy
(src/rag_system.py lines 310 to 330): dict get with a non-empty default
message for unknown usernames. -/
def rag_get_customer_policy (username : String) : String :=
  (rag_policies.lookup username).getD "No policy found for this user."

/-! ### Prompt composition

The two prompt templates are f-strings; each is embedded as the
concatenation of its fixed segments around the three interpolation
holes, in the order they appear in the source. -/

/-- Fixed text of the query route prompt before the customer policy hole
(src/api/query/route.py lines 69 to 72). -/
def routePromptSeg1 : String :=
  "You are an expert insurance policy assistant. Use the following information to provide accurate, helpful responses:\n\nCUSTOMER\x27S SPECIFIC POLICY:\n"

/-- Fixed text of the query route prompt between the customer policy
hole and the context hole (lines 73 to 75). -/
def routePromptSeg2 : String := "\n\nGENERAL INSURANCE POLICY INFORMATION:\n"

/-- Fixed text of the query route prompt between the context hole and
the question hole (lines 76 to 77). -/
def routePromptSeg3 : String := "\n\nCUSTOMER QUESTION: "

/-- Fixed instruction text of the query route prompt after the question
hole (lines 78 to 85). -/
def routePromptSeg4 : String :=
  "\n\nPlease provide a comprehensive response that:\n1. Addresses the customer\x27s specific policy details\n2. References relevant general policy information\n3. Includes clear explanations and next steps if applicable\n4. Cites sources when possible\n\nResponse:"

/-- Embedding of the query route prompt f-string
(src/api/query/route.py lines 69 to 85). -/
def route_prompt (customer_policy context query : String) : String :=
  routePromptSeg1 ++ customer_policy ++ routePromptSeg2 ++ context ++
    routePromptSeg3 ++ query ++ routePromptSeg4

/-- Context string of the query route: the retrieved texts joined with
the literal two-character escape sequence backslash-n written twice in
the source (src/api/query/route.py lines 64 to 66 join on the Python
string literal with doubled backslashes). -/
def route_context (rs : List RetrievalResult) : String :=
  joinWith "\\n\\n" (rs.map (·.text))

/-- Fixed text of the rag_system prompt before the customer policy hole
(src/rag_system.py lines 166 to 169). -/
def ragPromptSeg1 : String :=
  "You are an expert insurance assistant. Use the following information to provide a comprehensive answer:\n\nCUSTOMER POLICY:\n"

/-- Fixed text of the rag_system prompt between the customer policy hole
and the context hole (lines 170 to 172). -/
def ragPromptSeg2 : String := "\n\nRELEVANT CONTEXT:\n"

/-- Fixed text of the rag_system prompt between the context hole and the
question hole (lines 173 to 174). -/
def ragPromptSeg3 : String := "\n\nCUSTOMER QUESTION: "

/-- Fixed instruction text of the rag_system prompt after the question
hole (lines 175 to 176). -/
def ragPromptSeg4 : String :=
  "\n\nPlease provide a detailed, accurate response based on the available information. Include specific policy details when relevant and cite sources when possible."

/-- Embedding of the EnhancedKnowledgeBaseManager.generate_response
prompt f-string (src/rag_system.py lines 166 to 176). -/
def rag_prompt (query context customer_policy : String) : String :=
  ragPromptSeg1 ++ customer_policy ++ ragPromptSeg2 ++ context ++
    ragPromptSeg3 ++ query ++ ragPromptSeg4

/-- Context string of RAGInsuranceAssistant.chat: the retrieved texts
joined with two real newline characters (src/rag_system.py lines 274 to
276). -/
def rag_context (docs : List RetrievalResult) : String :=
  joinWith "\n\n" (docs.map (·.text))

/-! ### Generation clients

Each generation wrapper makes exactly one call to its external
endpoint; the embedding returns the produced record together with the
number of endpoint invocations, so the absence of retries is explicit.
The endpoint outcome is a parameter: an exception, or the generated
payload. -/

/-- Result record of EnhancedKnowledgeBaseManager.generate_response:
the Python dict has key response always, and keys model_used and
timestamp only on the non-exception paths (src/rag_system.py lines 189
to 197, 216 to 220). -/
structure GenResponse where
  response : String
  model_used : Option String
  timestamp : Option String
deriving Repr, DecidableEq

/-- Fixed apology of the rag_system generation wrapper on an exception
(src/rag_system.py line 197). -/
def rag_apology : String := "Sorry, I encountered an error generating a response."

/-- The demo response table of _generate_demo_response
(src/rag_system.py lines 201 to 207), in dict insertion order. -/
def rag_demo_responses : List (String × String) :=
  [("deductible", "Based on your policy, your deductible is $500 for comprehensive and collision coverage. This means you\x27ll pay the first $500 of any covered claim."),
   ("rental", "Yes, your policy includes rental car coverage up to $30 per day for a maximum of 30 days while your vehicle is being repaired due to a covered loss."),
   ("accident", "If you have an accident, first ensure everyone\x27s safety, then contact the police if needed. You should report the claim to us within 24 hours by calling our claims hotline."),
   ("claim", "To file a claim, you can call our 24/7 claims hotline, use our mobile app, or file online through your customer portal. Have your policy number and incident details ready."),
   ("coverage", "Your policy excludes normal wear and tear, mechanical breakdowns, intentional damage, and damage from racing or commercial use.")]

/-- Keyword selection of _generate_demo_response (src/rag_system.py
lines 210 to 214): the first table key occurring in the lowercased
query, defaulting to the key deductible. -/
def rag_demo_response_key (query : String) : String :=
  match (rag_demo_responses.map (·.1)).find? (fun k => strContains (strLower query) k) with
  | some k => k
  | none => "deductible"

/-- Embedding of _generate_demo_response (src/rag_system.py lines 199
to 220). -/
def rag_generate_demo_response (query : String) (now : String) : GenResponse :=
  { response := (rag_demo_responses.lookup (rag_demo_response_key query)).getD
      "I\x27d be happy to help with your insurance question. Could you please provide more specific details?",
    model_used := some "Demo Mode",
    timestamp := some now }

/-- Embedding of EnhancedKnowledgeBaseManager.generate_response
(src/rag_system.py lines 159 to 197).  The bedrock invoke_model
endpoint is modelled as a function from the composed prompt to the
outcome of the single call (exception, or the generated text).  The
second component counts endpoint invocations. -/
def rag_generate_response (connected : Bool)
    (endpoint : String → Except String String)
    (query context customer_policy : String) (now : String) :
    GenResponse × Nat :=
  if !connected then (rag_generate_demo_response query now, 0)
  else
    match endpoint (rag_prompt query context customer_policy) with
    | .ok text => ({ response := text, model_used := some "Claude 3.5 Haiku", timestamp := some now }, 1)
    | .error _ => ({ response := rag_apology, model_used := none, timestamp := none }, 1)

/-- Result record of BedrockKnowledgeBase.retrieve_and_generate: key
response always; keys citations and session_id on success, key error on
exception (src/lib/bedrock_kb.py lines 31 to 40). -/
structure BedrockRagResult where
  response : String
  citations : Option (List String)
  session_id : Option String
  error : Option String
deriving Repr, DecidableEq

/-- Payload of a successful bedrock retrieve_and_generate call. -/
structure RagOut where
  text : String
  citations : List String
  sessionId : String
  date : String
deriving Repr, DecidableEq

/-- Fixed apology of BedrockKnowledgeBase.retrieve_and_generate on an
exception (src/lib/bedrock_kb.py line 38). -/
def bedrock_kb_apology : String := "Error processing request."

/-- Embedding of BedrockKnowledgeBase.retrieve_and_generate
(src/lib/bedrock_kb.py lines 17 to 40): one endpoint call; the output
record on success, the fixed apology plus the exception text on
failure.  The second component counts endpoint invocations. -/
def bedrock_kb_retrieve_and_generate (endpoint : String → Except String RagOut)
    (query : String) : BedrockRagResult × Nat :=
  match endpoint query with
  | .ok out =>
    ({ response := out.text, citations := some out.citations,
       session_id := some out.sessionId, error := none }, 1)
  | .error e =>
    ({ response := bedrock_kb_apology, citations := none,
       session_id := none, error := some e }, 1)

/-! ### The query route generation flow -/

/-- Source entry of the query route success record
(src/api/query/route.py lines 101 to 106). -/
structure RouteSource where
  title : String
  content : String
deriving Repr, DecidableEq

/-- Result record of InsurancePolicyQueryHandler.generate_response: the
success dict has keys response, sources, customer_policy_used and
timestamp; the exception dict has keys response, sources (empty) and
error (src/api/query/route.py lines 99 to 117). -/
inductive RouteGenResult where
  | ok (response : String) (sources : List RouteSource)
      (customer_policy_used : Bool) (timestamp : String)
  | err (response : String) (sources : List RouteSource) (error : String)
deriving Repr, DecidableEq

/-- Fixed apology of the query route generation wrapper on an exception
(src/api/query/route.py line 114). -/
def route_apology : String :=
  "I apologize, but I encountered an error processing your request. Please try again or contact customer service."

/-- Embedding of InsurancePolicyQueryHandler.generate_response
(src/api/query/route.py lines 54 to 117): fetch the customer policy
(never raises), retrieve from the knowledge base (never raises), join
the context, compose the prompt, make one retrieve_and_generate call;
on success build the record with truncated source snippets, on any
exception return the fixed apology record.  The second component counts
retrieve_and_generate invocations. -/
def route_generate_response (s3get : String → Except String String)
    (kb : Nat → Except String (List RetrievalResult))
    (rag : String → Except String RagOut)
    (query username : String) : RouteGenResult × Nat :=
  let customer_policy := route_get_customer_policy s3get username
  let kb_results := route_retrieve_from_kb kb query route_retrieve_default_max
  let context := route_context kb_results
  let prompt := route_prompt customer_policy context query
  match rag prompt with
  | .ok out =>
    (.ok out.text
      (kb_results.map fun r =>
        { title := r.source.getD "Policy Document",
          content := r.text.take 200 ++ "..." })
      (!(customer_policy == "")) out.date, 1)
  | .error e => (.err route_apology [] e, 1)

/-- Request record of handle_query (src/api/query/route.py lines 119 to
122): optional query and username fields. -/
structure QueryRequest where
  query : Option String
  username : Option String
deriving Repr, DecidableEq

/-- Result of handle_query: the 400 error dict for a missing or empty
query, else the success dict wrapping the generation result
(src/api/query/route.py lines 124 to 135). -/
inductive HandleResult where
  | badRequest (error : String) (status : Nat)
  | ok (success : Bool) (data : RouteGenResult) (timestamp : String) (model : String)
deriving Repr, DecidableEq

/-- Embedding of handle_query (src/api/query/route.py lines 119 to
135).  Python falsiness of the query string: missing or empty both take
the 400 branch. -/
def handle_query (s3get : String → Except String String)
    (kb : Nat → Except String (List RetrievalResult))
    (rag : String → Except String RagOut)
    (req : QueryRequest) : HandleResult :=
  let query := req.query.getD ""
  let username := req.username.getD "john_doe"
  if query == "" then .badRequest "Query is required" 400
  else
    .ok true (route_generate_response s3get kb rag query username).1
      "\x7b\"timestamp\": \"now\"\x7d" "Insurance Policy Assistant with Bedrock KB"

/-! ### Chat and conversation history -/

/-- Source entry stored in a conversation turn (src/rag_system.py lines
289 to 291). -/
structure TurnSource where
  title : String
  content : String
  score : Rat
deriving Repr, DecidableEq

/-- One conversation turn (src/rag_system.py lines 285 to 292). -/
structure Turn where
  query : String
  response : String
  timestamp : String
  sources : List TurnSource
deriving Repr, DecidableEq

/-- Return record of RAGInsuranceAssistant.chat on the non-exception
path (src/rag_system.py lines 294 to 299). -/
structure ChatResult where
  response : String
  sources : List TurnSource
  model_used : String
  retrieved_docs_count : Nat
deriving Repr, DecidableEq

/-- Turn source built from a retrieved document (src/rag_system.py
lines 289 to 291): metadata source with default Unknown, the first 200
characters of the text plus an ellipsis, the score with default 0. -/
def docToTurnSource (d : RetrievalResult) : TurnSource :=
  { title := d.source.getD "Unknown",
    content := d.text.take 200 ++ "...",
    score := d.score.getD 0 }

/-- Embedding of RAGInsuranceAssistant.chat (src/rag_system.py lines
267 to 308): retrieve documents with max_results 3, join the context
with real newlines, look up the mock customer policy, generate the
response, append exactly one turn to the history, and return the chat
record.  Every step of the body catches its own exceptions, so the
outer except branch of the Python code is unreachable in the model; the
function returns the chat record and the new history. -/
def rag_chat (connected : Bool)
    (svcRet : Nat → Except String (List RetrievalResult))
    (endpoint : String → Except String String) (now : String)
    (query username : String) (history : List Turn) :
    ChatResult × List Turn :=
  let retrieved := rag_retrieve_documents connected svcRet query 3
  let context := rag_context retrieved
  let customer_policy := rag_get_customer_policy username
  let rd := (rag_generate_response connected endpoint query context customer_policy now).1
  let sources := retrieved.map docToTurnSource
  let turn : Turn := { query := query, response := rd.response, timestamp := now, sources := sources }
  ({ response := rd.response, sources := sources,
     model_used := rd.model_used.getD "Unknown",
     retrieved_docs_count := retrieved.length },
   history ++ [turn])

/-- Embedding of RAGInsuranceAssistant.get_conversation_history
(src/rag_system.py lines 332 to 334). -/
def get_conversation_history (history : List Turn) : List Turn := history

/-- Embedding of RAGInsuranceAssistant.clear_history (src/rag_system.py
lines 336 to 338). -/
def clear_history (_history : List Turn) : List Turn := []

/-! ### Object storage keys

The key-producing expressions of the upload and ingestion operations. -/

/-- Key of DocumentUploadHandler.upload_customer_policy
(src/api/upload/route.py line 26). -/
def upload_customer_policy_key (username : String) : String :=
  "customer_policy/" ++ username ++ ".txt"

/-- Key of DocumentUploadHandler.upload_general_document
(src/api/upload/route.py lines 56 to 57). -/
def upload_general_document_key (category file_id filename : String) : String :=
  "uploads/" ++ category ++ "/" ++ file_id ++ "_" ++ filename

/-- Key of DocumentUploadHandler.get_upload_url when a username is given
(src/api/upload/route.py line 80). -/
def get_upload_url_customer_key (username filename : String) : String :=
  "customer_policy/" ++ username ++ "_" ++ filename

/-- Key of DocumentUploadHandler.get_upload_url without a username
(src/api/upload/route.py line 83). -/
def get_upload_url_general_key (file_id filename : String) : String :=
  "uploads/general/" ++ file_id ++ "_" ++ filename

/-- Key of PolicyIngestionHandler.upload_policies_to_s3
(src/api/ingest-policies/route.py line 37). -/
def policy_docs_key (name : String) : String :=
  "policy_docs/" ++ name

/-- Key of EnhancedKnowledgeBaseManager.upload_document
(src/rag_system.py line 106): a date path component from the upload
moment, then the file name. -/
def upload_document_key (date file_name : String) : String :=
  "documents/" ++ date ++ "/" ++ file_name

/-- Modelled from the specification wording of the external-interfaces
section: a key lies in one of the three stated namespaces when it
begins with policy_docs/, or is of the form customer_policy followed by
an identifier and a txt extension, or begins with uploads/.  The two
slash-delimited forms are read generously: any key under the
customer_policy/ space ending in .txt, and any key under the uploads/
space, qualify. -/
def specStatedNamespaceKey (key : String) : Bool :=
  strStartsWith key "policy_docs/" ||
  (strStartsWith key "customer_policy/" && strEndsWith key ".txt") ||
  strStartsWith key "uploads/"

/-- The namespaces the code actually writes under: the three stated
ones, the documents/ space of upload_document, and customer_policy/
keys that need not end in .txt. -/
def observedNamespaceKey (key : String) : Bool :=
  strStartsWith key "policy_docs/" ||
  strStartsWith key "customer_policy/" ||
  strStartsWith key "uploads/" ||
  strStartsWith key "documents/"

/-! ### Helper lemmas on the string machinery -/

theorem segStartsWith_append (p b : List Char) : segStartsWith (p ++ b) p = true := by
  induction p with
  | nil => cases b <;> rfl
  | cons h t ih => simp [segStartsWith, ih]

theorem segContains_pat_nil (hay : List Char) : segContains hay [] = true := by
  cases hay <;> rfl

theorem segContains_append_left (a rest p : List Char)
    (h : segContains rest p = true) : segContains (a ++ rest) p = true := by
  induction a with
  | nil => simpa using h
  | cons x xs ih => simp [segContains, ih]

theorem segContains_self_append (p b : List Char) : segContains (p ++ b) p = true := by
  cases p with
  | nil => simpa using segContains_pat_nil b
  | cons x xs =>
    simp only [List.cons_append, segContains, Bool.or_eq_true]
    left
    simpa using segStartsWith_append (x :: xs) b

theorem segContains_mid (a p b : List Char) : segContains (a ++ (p ++ b)) p = true :=
  segContains_append_left a (p ++ b) p (segContains_self_append p b)

theorem strContains_of_data (hay p : String) (a b : List Char)
    (h : hay.data = a ++ (p.data ++ b)) : strContains hay p = true := by
  unfold strContains
  rw [h]
  exact segContains_mid a p.data b

theorem strStartsWith_of_data (s pre : String) (b : List Char)
    (h : s.data = pre.data ++ b) : strStartsWith s pre = true := by
  unfold strStartsWith
  rw [h]
  exact segStartsWith_append pre.data b

theorem strEndsWith_of_data (s suf : String) (a : List Char)
    (h : s.data = a ++ suf.data) : strEndsWith s suf = true := by
  unfold strEndsWith
  rw [h, List.reverse_append]
  exact segStartsWith_append suf.data.reverse a.reverse

theorem joinWith_mem_decomp (sep : String) (l : List String) (x : String)
    (hx : x ∈ l) : ∃ a b : List Char, (joinWith sep l).data = a ++ (x.data ++ b) := by
  induction l with
  | nil => cases hx
  | cons y ys ih =>
    cases ys with
    | nil =>
      have hxy : x = y := by simpa using hx
      subst hxy
      exact ⟨[], [], by simp [joinWith]⟩
    | cons z zs =>
      rcases List.mem_cons.mp hx with hxy | hmem
      · subst hxy
        exact ⟨[], sep.data ++ (joinWith sep (z :: zs)).data,
          by simp [joinWith, String.data_append]⟩
      · obtain ⟨a, b, hab⟩ := ih hmem
        exact ⟨y.data ++ sep.data ++ a, b,
          by simp [joinWith, String.data_append, hab]⟩

/-! ### Helper lemmas on the polling loop -/

theorem pollTrace_isSome_iff (ss : List String) :
    (pollTrace ss).isSome = true ↔ ∃ s ∈ ss, isTerminal s = true := by
  induction ss with
  | nil => simp [pollTrace]
  | cons s rest ih =>
    by_cases hs : isTerminal s = true
    · simp [pollTrace, hs]
    · simp [pollTrace, hs, ih]

theorem pollTrace_spec (ss : List String) (tr : List PollEvent) (fin : String)
    (h : pollTrace ss = some (tr, fin)) :
    isTerminal fin = true ∧
    (∃ k, firstIdx isTerminal ss = some k ∧ fetchCount tr = k + 1 ∧
      fetchedStatuses tr = ss.take (k + 1)) ∧
    sleepCount tr + 1 = fetchCount tr ∧
    allSleeps 30 tr = true ∧
    tr.getLast? = some (.fetch fin) := by
  induction ss generalizing tr fin with
  | nil => simp [pollTrace] at h
  | cons s rest ih =>
    by_cases hs : isTerminal s = true
    · simp [pollTrace, hs] at h
      obtain ⟨htr, hfin⟩ := h
      subst htr
      subst hfin
      refine ⟨hs, ⟨0, ?_, rfl, ?_⟩, rfl, ?_, rfl⟩
      · simp [firstIdx, hs]
      · simp [fetchedStatuses]
      · simp [allSleeps]
    · simp [pollTrace, hs] at h
      obtain ⟨tr', hrest, htr⟩ := h
      subst htr
      obtain ⟨hterm, ⟨k, hk, hf, hfs⟩, hsl, hall, hlast⟩ := ih tr' fin hrest
      refine ⟨hterm, ⟨k + 1, ?_, ?_, ?_⟩, ?_, ?_, ?_⟩
      · simp [firstIdx, hs, hk]
      · simp [fetchCount, hf]
      · simp [fetchedStatuses, hfs, List.take_succ_cons]
      · simp only [sleepCount, fetchCount]
        omega
      · simp [allSleeps, hall]
      · cases tr' with
        | nil => simp at hlast
        | cons c cs =>
          rw [List.getLast?_cons_cons, List.getLast?_cons_cons]
          exact hlast

/-! ### Claim C1 -/

/-- C1: for every query and every bound on results, when the external
retrieval call raises, each retrieval wrapper (the query route, the rag
manager in connected mode, the kb data builder) returns the empty list
rather than propagating the error; on success each returns the ordered
result list of the service unchanged, hence bounded by the requested
maximum whenever the service honours it; the defaults are 3 for the
route and 5 for the other two. -/
theorem C1_retrieval_failure_empty_success_ordered
    (svc : Nat → Except String (List RetrievalResult)) (q : String)
    (n : Nat) (l : List RetrievalResult) (e : String) :
    (svc n = .error e →
      route_retrieve_from_kb svc q n = [] ∧
      rag_retrieve_documents true svc q n = [] ∧
      builder_retrieve svc q n = []) ∧
    (svc n = .ok l →
      route_retrieve_from_kb svc q n = l ∧
      rag_retrieve_documents true svc q n = l ∧
      builder_retrieve svc q n = l ∧
      (l.length ≤ n →
        (route_retrieve_from_kb svc q n).length ≤ n ∧
        (rag_retrieve_documents true svc q n).length ≤ n ∧
        (builder_retrieve svc q n).length ≤ n)) ∧
    route_retrieve_default_max = 3 ∧ rag_retrieve_default_max = 5 ∧
    builder_retrieve_default_max = 5 := by
  refine ⟨fun h => ?_, fun h => ?_, rfl, rfl, rfl⟩
  · simp [route_retrieve_from_kb, rag_retrieve_documents, builder_retrieve, h]
  · simp [route_retrieve_from_kb, rag_retrieve_documents, builder_retrieve, h]

/-- Witness for C1: a concrete failing service yields the empty list and
a concrete succeeding service yields its result list. -/
theorem C1_retrieval_witness :
    route_retrieve_from_kb (fun _ => Except.error "boom") "q" 3 = [] ∧
    route_retrieve_from_kb (fun _ => Except.ok [⟨"t", none, none⟩]) "q" 3 =
      [⟨"t", none, none⟩] :=
  ⟨((C1_retrieval_failure_empty_success_ordered
      (fun _ => Except.error "boom") "q" 3 [] "boom").1 rfl).1,
   ((C1_retrieval_failure_empty_success_ordered
      (fun _ => Except.ok [⟨"t", none, none⟩]) "q" 3 [⟨"t", none, none⟩] "e").2.1 rfl).1⟩

/-! ### Claim C2 -/

/-- C2: for every sequence of polled job statuses, the polling loop
fetches a status, sleeps the fixed 30-second interval between
consecutive fetches, and terminates at the first polled terminal status
(COMPLETE or FAILED): the loop terminates exactly when the sequence
holds a terminal status, the trace holds the first terminal index plus
one fetches (so no fetch follows the terminal observation, and the
fetched statuses are exactly the sequence up to and including the first
terminal one), every sleep is 30 seconds, the sleeps number one fewer
than the fetches, and the last event is the fetch of the terminal
status; a terminal first status stops both the kb data builder loop and
the setup_kb loop after a single fetch, whatever would follow. -/
theorem C2_polling_terminates_on_first_terminal (ss : List String)
    (tr : List PollEvent) (fin s : String)
    (restS : List (Option String)) (rest2 : List String) :
    ((pollTrace ss).isSome = true ↔ ∃ s0 ∈ ss, isTerminal s0 = true) ∧
    (pollTrace ss = some (tr, fin) →
      isTerminal fin = true ∧
      (∃ k, firstIdx isTerminal ss = some k ∧ fetchCount tr = k + 1 ∧
        fetchedStatuses tr = ss.take (k + 1)) ∧
      sleepCount tr + 1 = fetchCount tr ∧
      allSleeps 30 tr = true ∧
      tr.getLast? = some (.fetch fin)) ∧
    (isTerminal s = true → pollTrace (s :: rest2) = some ([.fetch s], s)) ∧
    (isTerminal s = true → setupPoll (some s :: restS) = some (1, some s)) := by
  refine ⟨pollTrace_isSome_iff ss, fun h => pollTrace_spec ss tr fin h,
    fun hs => ?_, fun hs => ?_⟩
  · simp [pollTrace, hs]
  · simp [setupPoll, hs]

/-- Witness for C2 on a concrete status sequence whose third status is
terminal. -/
theorem C2_polling_witness :
    isTerminal "COMPLETE" = true ∧
    (∃ k, firstIdx isTerminal samplePollStatuses = some k ∧
      fetchCount samplePollTr = k + 1 ∧
      fetchedStatuses samplePollTr = samplePollStatuses.take (k + 1)) ∧
    sleepCount samplePollTr + 1 = fetchCount samplePollTr ∧
    allSleeps 30 samplePollTr = true ∧
    samplePollTr.getLast? = some (.fetch "COMPLETE") :=
  (C2_polling_terminates_on_first_terminal samplePollStatuses samplePollTr
    "COMPLETE" "COMPLETE" [] []).2.1 (by decide)

/-! ### Claim C3 -/

/-- C3 counterexample: for the username alice the customer policy is
absent, yet the mock customer-policy operation of RAGInsuranceAssistant
returns a fixed non-empty message rather than the empty string. -/
theorem C3_counterexample_rag_policy_not_empty :
    rag_get_customer_policy "alice" = "No policy found for this user." ∧
    (rag_get_customer_policy "alice" = "" → False) := by
  refine ⟨rfl, ?_⟩
  decide

/-- C3 (amended): the S3-backed customer-policy operations (the query
route and the streamlit app) return the empty string when the fetch
raises, never propagating the exception; the mock operation of
RAGInsuranceAssistant instead returns the fixed message for any
username absent from its table, and also never raises. -/
theorem C3_customer_policy_failure_behaviour
    (s3get : String → Except String String) (username e : String) :
    (s3get (customer_policy_key username) = .error e →
      route_get_customer_policy s3get username = "" ∧
      streamlit_get_customer_policy s3get username = "") ∧
    (rag_policies.lookup username = none →
      rag_get_customer_policy username = "No policy found for this user.") := by
  refine ⟨fun h => ?_, fun h => ?_⟩
  · simp [route_get_customer_policy, streamlit_get_customer_policy, s3storage_get_file, h]
  · simp [rag_get_customer_policy, h]

/-- Witness for C3 (amended) at a concrete failing S3 fetch. -/
theorem C3_customer_policy_witness :
    route_get_customer_policy (fun _ => Except.error "NoSuchKey") "alice" = "" ∧
    streamlit_get_customer_policy (fun _ => Except.error "NoSuchKey") "alice" = "" :=
  (C3_customer_policy_failure_behaviour (fun _ => Except.error "NoSuchKey")
    "alice" "NoSuchKey").1 rfl

/-! ### Claim C4 -/

/-- C4: for every query, context and customer policy, when the external
generation call raises, each generation wrapper returns its fixed
apology string, the same string for every failing input, and performs
exactly one endpoint call, hence no retry: the rag manager returns its
apology record, the bedrock kb library returns its apology together
with the exception text, and the query route returns its apology record
with empty sources. -/
theorem C4_generation_failure_fixed_apology_no_retry
    (q ctx pol now e username : String)
    (endpointT : String → Except String String)
    (endpointR : String → Except String RagOut)
    (s3get : String → Except String String)
    (kb : Nat → Except String (List RetrievalResult)) :
    (endpointT (rag_prompt q ctx pol) = .error e →
      rag_generate_response true endpointT q ctx pol now =
        ({ response := rag_apology, model_used := none, timestamp := none }, 1)) ∧
    (endpointR q = .error e →
      bedrock_kb_retrieve_and_generate endpointR q =
        ({ response := bedrock_kb_apology, citations := none,
           session_id := none, error := some e }, 1)) ∧
    ((∀ p, endpointR p = .error e) →
      route_generate_response s3get kb endpointR q username =
        (.err route_apology [] e, 1)) ∧
    rag_apology = "Sorry, I encountered an error generating a response." ∧
    bedrock_kb_apology = "Error processing request." ∧
    route_apology = "I apologize, but I encountered an error processing your request. Please try again or contact customer service." := by
  refine ⟨fun h => ?_, fun h => ?_, fun h => ?_, rfl, rfl, rfl⟩
  · simp [rag_generate_response, h]
  · simp [bedrock_kb_retrieve_and_generate, h]
  · simp [route_generate_response, h]

/-- Witness for C4 at concrete failing endpoints. -/
theorem C4_generation_witness :
    rag_generate_response true (fun _ => Except.error "throttled") "q" "c" "p" "t0" =
      ({ response := rag_apology, model_used := none, timestamp := none }, 1) ∧
    bedrock_kb_retrieve_and_generate (fun _ => Except.error "throttled") "q" =
      ({ response := bedrock_kb_apology, citations := none, session_id := none,
         error := some "throttled" }, 1) ∧
    route_generate_response (fun _ => Except.error "x") (fun _ => Except.error "y")
      (fun _ => Except.error "throttled") "q" "john_doe" =
      (.err route_apology [] "throttled", 1) :=
  ⟨(C4_generation_failure_fixed_apology_no_retry "q" "c" "p" "t0" "throttled" "u"
      (fun _ => Except.error "throttled") (fun _ => Except.error "throttled")
      (fun _ => Except.error "x") (fun _ => Except.error "y")).1 rfl,
   (C4_generation_failure_fixed_apology_no_retry "q" "c" "p" "t0" "throttled" "u"
      (fun _ => Except.error "throttled") (fun _ => Except.error "throttled")
      (fun _ => Except.error "x") (fun _ => Except.error "y")).2.1 rfl,
   (C4_generation_failure_fixed_apology_no_retry "q" "c" "p" "t0" "throttled" "john_doe"
      (fun _ => Except.error "throttled") (fun _ => Except.error "throttled")
      (fun _ => Except.error "x") (fun _ => Except.error "y")).2.2.1 (fun _ => rfl)⟩

/-! ### Claim C5 -/

/-- C5: prompt composition is a deterministic function of its inputs:
two runs with equal query, equal retrieved passages and equal customer
policy compose identical prompt strings, in both the query route and
the rag manager. -/
theorem C5_prompt_composition_deterministic
    (q1 q2 pol1 pol2 : String) (rs1 rs2 : List RetrievalResult)
    (hq : q1 = q2) (hrs : rs1 = rs2) (hpol : pol1 = pol2) :
    route_prompt pol1 (route_context rs1) q1 =
      route_prompt pol2 (route_context rs2) q2 ∧
    rag_prompt q1 (rag_context rs1) pol1 =
      rag_prompt q2 (rag_context rs2) pol2 := by
  subst hq
  subst hrs
  subst hpol
  exact ⟨rfl, rfl⟩

/-- Witness for C5 at concrete equal inputs. -/
theorem C5_prompt_witness :
    route_prompt "POL" (route_context []) "q" = route_prompt "POL" (route_context []) "q" ∧
    rag_prompt "q" (rag_context []) "POL" = rag_prompt "q" (rag_context []) "POL" :=
  C5_prompt_composition_deterministic "q" "q" "POL" "POL" [] [] rfl rfl rfl

/-! ### Claim C6 -/

/-- C6: for every query and customer policy, composing the prompt over
an empty retrieved-passage list succeeds (the composer is a total
function of the model) and the general-context section of the result is
the empty string, in both the query route and the rag manager. -/
theorem C6_empty_retrieval_empty_context_section (q pol : String) :
    route_context [] = "" ∧ rag_context [] = "" ∧
    route_prompt pol (route_context []) q =
      routePromptSeg1 ++ pol ++ routePromptSeg2 ++ "" ++ routePromptSeg3 ++ q ++ routePromptSeg4 ∧
    rag_prompt q (rag_context []) pol =
      ragPromptSeg1 ++ pol ++ ragPromptSeg2 ++ "" ++ ragPromptSeg3 ++ q ++ ragPromptSeg4 := by
  refine ⟨rfl, rfl, ?_, ?_⟩
  · simp [route_prompt, route_context, joinWith, String.append_empty]
  · simp [rag_prompt, rag_context, joinWith, String.append_empty]

/-! ### Claim C7 -/

/-- C7: for every customer policy text, list of retrieved passages and
query, the composed prompt is a single string with the fixed four-part
structure in order: a policy section holding the customer policy text,
a general-context section holding the joined passage texts, the
question, then the instructions; consequently the prompt contains the
policy text, the question, and the text of every retrieved passage.
Both the query route composer and the rag manager composer are
covered. -/
theorem C7_prompt_fixed_four_part_structure
    (pol q : String) (rs : List RetrievalResult) :
    route_prompt pol (route_context rs) q =
      routePromptSeg1 ++ pol ++ routePromptSeg2 ++ route_context rs ++
        routePromptSeg3 ++ q ++ routePromptSeg4 ∧
    rag_prompt q (rag_context rs) pol =
      ragPromptSeg1 ++ pol ++ ragPromptSeg2 ++ rag_context rs ++
        ragPromptSeg3 ++ q ++ ragPromptSeg4 ∧
    route_context rs = joinWith "\\n\\n" (rs.map (·.text)) ∧
    rag_context rs = joinWith "\n\n" (rs.map (·.text)) ∧
    strContains (route_prompt pol (route_context rs) q) pol = true ∧
    strContains (route_prompt pol (route_context rs) q) q = true ∧
    (∀ r, r ∈ rs → strContains (route_prompt pol (route_context rs) q) r.text = true) ∧
    (∀ r, r ∈ rs → strContains (rag_prompt q (rag_context rs) pol) r.text = true) := by
  refine ⟨rfl, rfl, rfl, rfl, ?_, ?_, ?_, ?_⟩
  · exact strContains_of_data _ _ routePromptSeg1.data
      (routePromptSeg2.data ++ ((route_context rs).data ++
        (routePromptSeg3.data ++ (q.data ++ routePromptSeg4.data))))
      (by simp [route_prompt, String.data_append, List.append_assoc])
  · exact strContains_of_data _ _
      (routePromptSeg1.data ++ (pol.data ++ (routePromptSeg2.data ++
        ((route_context rs).data ++ routePromptSeg3.data))))
      routePromptSeg4.data
      (by simp [route_prompt, String.data_append, List.append_assoc])
  · intro r hr
    obtain ⟨a, b, hab⟩ := joinWith_mem_decomp "\\n\\n" (rs.map (·.text)) r.text
      (List.mem_map_of_mem _ hr)
    exact strContains_of_data _ _
      (routePromptSeg1.data ++ (pol.data ++ (routePromptSeg2.data ++ a)))
      (b ++ (routePromptSeg3.data ++ (q.data ++ routePromptSeg4.data)))
      (by simp [route_prompt, route_context, String.data_append, List.append_assoc, hab])
  · intro r hr
    obtain ⟨a, b, hab⟩ := joinWith_mem_decomp "\n\n" (rs.map (·.text)) r.text
      (List.mem_map_of_mem _ hr)
    exact strContains_of_data _ _
      (ragPromptSeg1.data ++ (pol.data ++ (ragPromptSeg2.data ++ a)))
      (b ++ (ragPromptSeg3.data ++ (q.data ++ ragPromptSeg4.data)))
      (by simp [rag_prompt, rag_context, String.data_append, List.append_assoc, hab])

/-- Witness for C7: the composed prompt over one concrete passage
contains that passage text. -/
theorem C7_prompt_witness :
    strContains (route_prompt "POL" (route_context [⟨"PASS", none, none⟩]) "Q") "PASS" = true :=
  (C7_prompt_fixed_four_part_structure "POL" "Q" [⟨"PASS", none, none⟩]).2.2.2.2.2.2.1
    ⟨"PASS", none, none⟩ (List.mem_singleton.mpr rfl)

/-! ### Claim C8 -/

/-- C8 counterexample: the knowledge-base document upload of the rag
manager produces the key documents/2025/01/01/policy.pdf, which lies in
none of the three stated namespaces. -/
theorem C8_counterexample_upload_document_key :
    specStatedNamespaceKey (upload_document_key "2025/01/01" "policy.pdf") = false := by
  decide

/-- C8 (amended): every object-storage key produced by the upload and
ingestion operations begins with policy_docs/, customer_policy/,
uploads/ or documents/: the customer policy upload writes
customer_policy ids with a txt extension, the general upload writes
uploads keys by category, the policy ingestion writes under
policy_docs/, the knowledge-base document upload writes under
documents/ by date, and the presigned-URL path writes customer_policy
ids joined to the file name, or uploads/general/ keys. -/
theorem C8_storage_keys_namespaces
    (username category file_id filename date name : String) :
    upload_customer_policy_key username = "customer_policy/" ++ username ++ ".txt" ∧
    strStartsWith (upload_customer_policy_key username) "customer_policy/" = true ∧
    strEndsWith (upload_customer_policy_key username) ".txt" = true ∧
    upload_general_document_key category file_id filename =
      "uploads/" ++ category ++ "/" ++ file_id ++ "_" ++ filename ∧
    strStartsWith (upload_general_document_key category file_id filename) "uploads/" = true ∧
    policy_docs_key name = "policy_docs/" ++ name ∧
    strStartsWith (policy_docs_key name) "policy_docs/" = true ∧
    upload_document_key date name = "documents/" ++ date ++ "/" ++ name ∧
    strStartsWith (upload_document_key date name) "documents/" = true ∧
    get_upload_url_customer_key username filename =
      "customer_policy/" ++ username ++ "_" ++ filename ∧
    strStartsWith (get_upload_url_customer_key username filename) "customer_policy/" = true ∧
    get_upload_url_general_key file_id filename =
      "uploads/general/" ++ file_id ++ "_" ++ filename ∧
    strStartsWith (get_upload_url_general_key file_id filename) "uploads/" = true ∧
    observedNamespaceKey (upload_customer_policy_key username) = true ∧
    observedNamespaceKey (upload_general_document_key category file_id filename) = true ∧
    observedNamespaceKey (policy_docs_key name) = true ∧
    observedNamespaceKey (upload_document_key date name) = true ∧
    observedNamespaceKey (get_upload_url_customer_key username filename) = true ∧
    observedNamespaceKey (get_upload_url_general_key file_id filename) = true := by
  have h1 : strStartsWith (upload_customer_policy_key username) "customer_policy/" = true :=
    strStartsWith_of_data _ _ (username.data ++ ".txt".data)
      (by simp [upload_customer_policy_key, String.data_append, List.append_assoc])
  have h1e : strEndsWith (upload_customer_policy_key username) ".txt" = true :=
    strEndsWith_of_data _ _ ("customer_policy/".data ++ username.data)
      (by simp [upload_customer_policy_key, String.data_append, List.append_assoc])
  have h2 : strStartsWith (upload_general_document_key category file_id filename) "uploads/" = true :=
    strStartsWith_of_data _ _
      (category.data ++ ("/".data ++ (file_id.data ++ ("_".data ++ filename.data))))
      (by simp [upload_general_document_key, String.data_append, List.append_assoc])
  have h3 : strStartsWith (policy_docs_key name) "policy_docs/" = true :=
    strStartsWith_of_data _ _ name.data
      (by simp [policy_docs_key, String.data_append, List.append_assoc])
  have h4 : strStartsWith (upload_document_key date name) "documents/" = true :=
    strStartsWith_of_data _ _ (date.data ++ ("/".data ++ name.data))
      (by simp [upload_document_key, String.data_append, List.append_assoc])
  have h5 : strStartsWith (get_upload_url_customer_key username filename) "customer_policy/" = true :=
    strStartsWith_of_data _ _ (username.data ++ ("_".data ++ filename.data))
      (by simp [get_upload_url_customer_key, String.data_append, List.append_assoc])
  have h6 : strStartsWith (get_upload_url_general_key file_id filename) "uploads/" = true :=
    strStartsWith_of_data _ _ ("general/".data ++ (file_id.data ++ ("_".data ++ filename.data)))
      (by simp [get_upload_url_general_key, String.data_append, List.append_assoc])
  refine ⟨rfl, h1, h1e, rfl, h2, rfl, h3, rfl, h4, rfl, h5, rfl, h6, ?_, ?_, ?_, ?_, ?_, ?_⟩
  · simp [observedNamespaceKey, h1]
  · simp [observedNamespaceKey, h2]
  · simp [observedNamespaceKey, h3]
  · simp [observedNamespaceKey, h4]
  · simp [observedNamespaceKey, h5]
  · simp [observedNamespaceKey, h6]

/-! ### Claim C9 -/

/-- C9: on every run of the chat operation (which always succeeds in the
model, since every inner step catches its own failures), exactly one
conversation turn is appended to the in-memory history, and that turn
holds the query, the returned response, the timestamp, and the sources
built from the retrieved passages; the clear operation leaves the
history empty and the getter returns the history unchanged. -/
theorem C9_chat_appends_one_turn (connected : Bool)
    (svcRet : Nat → Except String (List RetrievalResult))
    (endpoint : String → Except String String)
    (now query username : String) (history : List Turn) :
    (rag_chat connected svcRet endpoint now query username history).2 =
      history ++
        [{ query := query,
           response := (rag_chat connected svcRet endpoint now query username history).1.response,
           timestamp := now,
           sources := (rag_chat connected svcRet endpoint now query username history).1.sources }] ∧
    (rag_chat connected svcRet endpoint now query username history).2.length =
      history.length + 1 ∧
    (rag_chat connected svcRet endpoint now query username history).1.sources =
      (rag_retrieve_documents connected svcRet query 3).map docToTurnSource ∧
    clear_history history = [] ∧
    get_conversation_history history = history := by
  refine ⟨rfl, ?_, rfl, rfl, rfl⟩
  simp [rag_chat]

/-! ### Claim C10 -/

/-- C10: the top-level query handler returns the 400 error record
exactly when the query field is missing or empty; for every non-empty
query it returns a record with success true wrapping the generation
result, even when the generation endpoint failed and the nested result
carries only the apology and an error text. -/
theorem C10_handle_query_validation (s3get : String → Except String String)
    (kb : Nat → Except String (List RetrievalResult))
    (rag : String → Except String RagOut) (req : QueryRequest) (q e : String) :
    (handle_query s3get kb rag req = .badRequest "Query is required" 400 ↔
      (req.query = none ∨ req.query = some "")) ∧
    (req.query = some q → (q = "" → False) →
      handle_query s3get kb rag req =
        .ok true (route_generate_response s3get kb rag q (req.username.getD "john_doe")).1
          "\x7b\"timestamp\": \"now\"\x7d" "Insurance Policy Assistant with Bedrock KB") ∧
    ((∀ p, rag p = .error e) → req.query = some q → (q = "" → False) →
      handle_query s3get kb rag req =
        .ok true (.err route_apology [] e)
          "\x7b\"timestamp\": \"now\"\x7d" "Insurance Policy Assistant with Bedrock KB") := by
  obtain ⟨oq, ou⟩ := req
  refine ⟨?_, ?_, ?_⟩
  · cases oq with
    | none => simp [handle_query]
    | some s =>
      by_cases hs : s = ""
      · subst hs
        simp [handle_query]
      · simp [handle_query, hs]
  · intro hq hne
    simp at hq
    subst hq
    have hqe : (q == "") = false := by
      simp
      intro h
      exact hne h
    simp [handle_query, hqe]
  · intro hall hq hne
    simp at hq
    subst hq
    have hqe : (q == "") = false := by
      simp
      intro h
      exact hne h
    simp [handle_query, hqe, route_generate_response, hall]

/-- Witness for C10: a missing query yields the 400 record, and a
non-empty query with a failing generation endpoint yields success true
around the apology record. -/
theorem C10_handle_query_witness :
    handle_query (fun _ => Except.error "x") (fun _ => Except.error "y")
      (fun _ => Except.error "down") { query := none, username := none } =
      .badRequest "Query is required" 400 ∧
    handle_query (fun _ => Except.error "x") (fun _ => Except.error "y")
      (fun _ => Except.error "down")
      { query := some "What is my deductible?", username := some "john_doe" } =
      .ok true (.err route_apology [] "down")
        "\x7b\"timestamp\": \"now\"\x7d" "Insurance Policy Assistant with Bedrock KB" :=
  ⟨(C10_handle_query_validation (fun _ => Except.error "x") (fun _ => Except.error "y")
      (fun _ => Except.error "down") { query := none, username := none } "q" "down").1.mpr
      (Or.inl rfl),
   (C10_handle_query_validation (fun _ => Except.error "x") (fun _ => Except.error "y")
      (fun _ => Except.error "down")
      { query := some "What is my deductible?", username := some "john_doe" }
      "What is my deductible?" "down").2.2 (fun _ => rfl) rfl (by decide)⟩
